import Mathlib

/-!
Shallow embedding of the cross-sell analysis program (`VennV2.py`).

A dataframe is a `List Registro`; each `Registro` is one row of the SQL
result (one sale line joined with customer and product reference data).
Nullable columns are `Option`-valued, mirroring SQL NULL / pandas NaN.
Dates are modelled as `Nat` (only their ordering matters); identifiers
for customers and products as `Nat`; quantities as `Int`.
-/

structure Registro where
  cliente : Nat
  mercadoria : Nat
  data_emissao : Nat
  valor_liq : Int
  quant : Int
  vendedor : Option String
  cidade : Option String
  raz_social : Option String
  atividade : Option String
  rede : Option String
  descricao_produto : Option String
deriving DecidableEq, Repr

/-! ## Cross-sell analyzer (`analisar_venda_cruzada`, lines 129-158) -/

/-- Result record returned by `analisar_venda_cruzada`: the five sets and
the five counts the Python dict carries. -/
structure Resultado where
  clientes_a : Finset Nat
  clientes_b : Finset Nat
  apenas_a : Finset Nat
  apenas_b : Finset Nat
  ambos : Finset Nat
  total_a : Nat
  total_b : Nat
  count_apenas_a : Nat
  count_apenas_b : Nat
  count_ambos : Nat
deriving DecidableEq

/-- `set(df[df['mercadoria'] == p]['cliente'].unique())`: the distinct
customers among rows whose product equals `p`. -/
def clientesDe (df : List Registro) (p : Nat) : Finset Nat :=
  ((df.filter (fun r => r.mercadoria == p)).map (fun r => r.cliente)).toFinset

/-- Embedding of `analisar_venda_cruzada(df, produto_a, produto_b)`. -/
def analisar_venda_cruzada (df : List Registro) (produto_a produto_b : Nat) :
    Resultado :=
  let clientes_a := clientesDe df produto_a
  let clientes_b := clientesDe df produto_b
  let apenas_a := clientes_a \ clientes_b
  let apenas_b := clientes_b \ clientes_a
  let ambos := clientes_a ∩ clientes_b
  { clientes_a := clientes_a
    clientes_b := clientes_b
    apenas_a := apenas_a
    apenas_b := apenas_b
    ambos := ambos
    total_a := clientes_a.card
    total_b := clientes_b.card
    count_apenas_a := apenas_a.card
    count_apenas_b := apenas_b.card
    count_ambos := ambos.card }

/-- Conversion-rate computation performed by the callers (lines 212 and 426):
`(count_ambos / total_a * 100) if total_a > 0 else 0`, with Python float
division modelled as exact rational division. -/
def taxa_conversao (res : Resultado) : ℚ :=
  if res.total_a > 0 then (res.count_ambos : ℚ) / (res.total_a : ℚ) * 100 else 0

/-! ## Filter engine (`main`, lines 377-389)

Each stage mirrors one `if 'Todas' not in sel and len(sel) > 0:` block.
`pandas.Series.isin` on a NULL value yields `False`, hence `opcIn`. -/

/-- `value.isin(sel)` for a nullable column: a NULL attribute is never a
member of the accepted set. -/
def opcIn (v : Option String) (sel : List String) : Bool :=
  match v with
  | some s => sel.contains s
  | none => false

def filtroCidade (sel : List String) (df : List Registro) : List Registro :=
  if !sel.contains "Todas" && !sel.isEmpty then
    df.filter (fun r => opcIn r.cidade sel)
  else df

def filtroVendedor (sel : List String) (df : List Registro) : List Registro :=
  if !sel.contains "Todos" && !sel.isEmpty then
    df.filter (fun r => opcIn r.vendedor sel)
  else df

def filtroAtividade (sel : List String) (df : List Registro) : List Registro :=
  if !sel.contains "Todas" && !sel.isEmpty then
    df.filter (fun r => opcIn r.atividade sel)
  else df

def filtroRede (sel : List String) (df : List Registro) : List Registro :=
  if !sel.contains "Todas" && !sel.isEmpty then
    df.filter (fun r => opcIn r.rede sel)
  else df

/-- The four sequential filter blocks of `main` (lines 377-389), applied in
source order: city, salesperson, activity, network. -/
def aplicarFiltros (df : List Registro)
    (cidadeSel vendedorSel atividadeSel redeSel : List String) : List Registro :=
  filtroRede redeSel
    (filtroAtividade atividadeSel
      (filtroVendedor vendedorSel
        (filtroCidade cidadeSel df)))

/-! ## Detail-table builder (`main`, lines 453-466, 492-508, 531-566)

`groupby('cliente')` with pandas defaults: group keys are the distinct
customers sorted ascending; the aggregations `'first'` and `'last'` take
the first/last non-null value of the group in row order, `'max'` the
maximum emission date, `'sum'` the sum of quantities.  The final
`sort_values('Última Compra', ascending=False)` reorders rows by
last-purchase date descending. -/

/-- Row of the single-product detail tables (`df_apenas_a` / `df_apenas_b`). -/
structure Linha where
  cliente : Nat
  raz_social : Option String
  cidade : Option String
  atividade : Option String
  rede : Option String
  vendedor : Option String
  produto : Option String
  ultima_compra : Nat
  qtd_total : Int
deriving DecidableEq, Repr

/-- Row of the both-products detail table (`df_ambos`). -/
structure LinhaAmbos where
  cliente : Nat
  raz_social : Option String
  cidade : Option String
  atividade : Option String
  rede : Option String
  vendedor : Option String
  ultima_compra : Nat
  qtd_total : Int
  produtos : Option String
deriving DecidableEq, Repr

/-- pandas `'first'` aggregation: first non-null value of the group. -/
def aggFirst (f : Registro → Option String) (g : List Registro) : Option String :=
  g.findSome? f

/-- pandas `'last'` aggregation: last non-null value of the group. -/
def aggLast (f : Registro → Option String) (g : List Registro) : Option String :=
  g.reverse.findSome? f

/-- pandas `'max'` aggregation on the (non-null) emission date column. -/
def aggMaxData (g : List Registro) : Nat :=
  (g.map (fun r => r.data_emissao)).foldr max 0

/-- pandas `'sum'` aggregation on the quantity column. -/
def somaQuant (g : List Registro) : Int :=
  (g.map (fun r => r.quant)).sum

/-- The rows of `xs` belonging to group key `c`. -/
def grupo (xs : List Registro) (c : Nat) : List Registro :=
  xs.filter (fun r => r.cliente == c)

/-- Insert into a list sorted by `le` (auxiliary of `ordena`). -/
def insOrd {α : Type} (le : α → α → Bool) (a : α) : List α → List α
  | [] => [a]
  | b :: t => if le a b then a :: b :: t else b :: insOrd le a t

/-- Insertion sort by `le`: the deterministic sort used to model the
sorting steps (`groupby`'s sorted keys and `sort_values`). -/
def ordena {α : Type} (le : α → α → Bool) : List α → List α
  | [] => []
  | a :: t => insOrd le a (ordena le t)

/-- The group keys of `xs.groupby('cliente')`: distinct customers in
ascending order (pandas sorts group keys by default). -/
def chavesGrupo (xs : List Registro) : List Nat :=
  ordena (fun a b => decide (a ≤ b)) ((xs.map (fun r => r.cliente)).dedup)

/-- One aggregated row of a single-product detail table. -/
def montarLinha (xs : List Registro) (c : Nat) : Linha :=
  let g := grupo xs c
  { cliente := c
    raz_social := aggFirst (fun r => r.raz_social) g
    cidade := aggFirst (fun r => r.cidade) g
    atividade := aggFirst (fun r => r.atividade) g
    rede := aggFirst (fun r => r.rede) g
    vendedor := aggLast (fun r => r.vendedor) g
    produto := aggFirst (fun r => r.descricao_produto) g
    ultima_compra := aggMaxData g
    qtd_total := somaQuant g }

/-- `sort_values('Última Compra', ascending=False)` on a single-product
table. -/
def ordenarLinhas (ls : List Linha) : List Linha :=
  ordena (fun x y => decide (y.ultima_compra ≤ x.ultima_compra)) ls

/-- The detail table for a single-product partition (lines 454-469 for
`apenas_a`, 493-508 for `apenas_b`): restrict to the partition's customers
and the given product, group by customer, aggregate, sort by date
descending. -/
def tabela_detalhe (df : List Registro) (clientes : Finset Nat) (p : Nat) :
    List Linha :=
  let xs := df.filter (fun r => decide (r.cliente ∈ clientes) && r.mercadoria == p)
  ordenarLinhas ((chavesGrupo xs).map (montarLinha xs))

/-- `df_ambos['desc_a'] + ' | ' + df_ambos['desc_b']`: pandas string
concatenation on an object column propagates NaN (masked element-wise op),
so a missing side yields a null result, not an empty string. -/
def concatDesc (da db : Option String) : Option String :=
  match da, db with
  | some a, some b => some (a ++ " | " ++ b)
  | _, _ => none

/-- One aggregated row of the both-products table: base aggregates over the
customer's full group in `xs`, product descriptions merged in from the
product-restricted groupings `xa` and `xb` (left merge on customer). -/
def montarLinhaAmbos (xs xa xb : List Registro) (c : Nat) : LinhaAmbos :=
  let g := grupo xs c
  { cliente := c
    raz_social := aggFirst (fun r => r.raz_social) g
    cidade := aggFirst (fun r => r.cidade) g
    atividade := aggFirst (fun r => r.atividade) g
    rede := aggFirst (fun r => r.rede) g
    vendedor := aggLast (fun r => r.vendedor) g
    ultima_compra := aggMaxData g
    qtd_total := somaQuant g
    produtos := concatDesc
      (aggFirst (fun r => r.descricao_produto) (grupo xa c))
      (aggFirst (fun r => r.descricao_produto) (grupo xb c)) }

/-- `sort_values('Última Compra', ascending=False)` on the both-products
table. -/
def ordenarLinhasAmbos (ls : List LinhaAmbos) : List LinhaAmbos :=
  ordena (fun x y => decide (y.ultima_compra ≤ x.ultima_compra)) ls

/-- The detail table for the `ambos` partition (lines 531-566): no product
restriction on the base aggregation; the two product descriptions come from
separate product-restricted groupings and are concatenated with `" | "`. -/
def tabela_ambos (df : List Registro) (clientes : Finset Nat) (pa pb : Nat) :
    List LinhaAmbos :=
  let xs := df.filter (fun r => decide (r.cliente ∈ clientes))
  let xa := df.filter (fun r => decide (r.cliente ∈ clientes) && r.mercadoria == pa)
  let xb := df.filter (fun r => decide (r.cliente ∈ clientes) && r.mercadoria == pb)
  ordenarLinhasAmbos ((chavesGrupo xs).map (montarLinhaAmbos xs xa xb))

/-- The predicate one filter field contributes: if the selection has no
sentinel and is non-empty it demands membership of the attribute in the
accepted set, otherwise it imposes no restriction. -/
def predCampo (getter : Registro → Option String) (sentinel : String)
    (sel : List String) (r : Registro) : Bool :=
  if !sel.contains sentinel && !sel.isEmpty then opcIn (getter r) sel else true

/-! ## Concrete example data (the scenario of spec section 8) -/

/-- A fully-populated record, used for concrete evaluations. -/
def reg (c p d : Nat) (q : Int) : Registro :=
  { cliente := c, mercadoria := p, data_emissao := d, valor_liq := 0, quant := q,
    vendedor := some "v", cidade := some "Belo Horizonte", raz_social := some "rs",
    atividade := some "at", rede := some "rd", descricao_produto := some "D" }

/-- The record set of the spec scenario:
`[(C1,PA,2024-01-01,qty=2), (C1,PB,2024-01-05,qty=1), (C2,PA,2024-01-02,qty=3)]`
with customers 1, 2, products 10 (PA), 20 (PB) and dates as day numbers. -/
def dfCenario : List Registro := [reg 1 10 1 2, reg 1 20 5 1, reg 2 10 2 3]

/-- The first non-null product description among the records of customer
`c` for product `p` (reference value for the merged `desc_a` / `desc_b`
columns). -/
def primeiraDescricao (df : List Registro) (c p : Nat) : Option String :=
  aggFirst (fun r => r.descricao_produto)
    (df.filter (fun r => r.cliente == c && r.mercadoria == p))

/-- A record whose product description is NULL (the sales query LEFT JOINs
the product reference table, so this occurs for unknown products). -/
def regSemDesc : Registro :=
  { cliente := 1, mercadoria := 10, data_emissao := 1, valor_liq := 0, quant := 2,
    vendedor := some "v", cidade := some "Belo Horizonte", raz_social := some "rs",
    atividade := some "at", rede := some "rd", descricao_produto := none }

/-- Customer 1 bought product 10 (description NULL) and product 20
(description "D"), so customer 1 is in `ambos` with one side lacking any
description. -/
def dfSemDesc : List Registro := [regSemDesc, reg 1 20 5 1]

/-- The row the only-A detail table produces for customer 2 of the spec
scenario. -/
def linhaC2 : Linha :=
  { cliente := 2, raz_social := some "rs", cidade := some "Belo Horizonte",
    atividade := some "at", rede := some "rd", vendedor := some "v",
    produto := some "D", ultima_compra := 2, qtd_total := 3 }

/-- The row the both-products detail table produces for customer 1 of the
spec scenario. -/
def linhaAmbos1 : LinhaAmbos :=
  { cliente := 1, raz_social := some "rs", cidade := some "Belo Horizonte",
    atividade := some "at", rede := some "rd", vendedor := some "v",
    ultima_compra := 5, qtd_total := 3, produtos := some "D | D" }

/-! ## Theorems -/

/-- C1: for every record set and product pair, the three output sets
`apenas_a`, `apenas_b`, `ambos` are pairwise disjoint and their union is
`clientes_a ∪ clientes_b`; in particular no customer outside `A ∪ B`
appears in any of them. -/
theorem apenas_ambos_partition (df : List Registro) (pa pb : Nat) :
    Disjoint (analisar_venda_cruzada df pa pb).apenas_a
      (analisar_venda_cruzada df pa pb).apenas_b ∧
    Disjoint (analisar_venda_cruzada df pa pb).apenas_a
      (analisar_venda_cruzada df pa pb).ambos ∧
    Disjoint (analisar_venda_cruzada df pa pb).apenas_b
      (analisar_venda_cruzada df pa pb).ambos ∧
    (analisar_venda_cruzada df pa pb).apenas_a ∪
      (analisar_venda_cruzada df pa pb).apenas_b ∪
      (analisar_venda_cruzada df pa pb).ambos =
    (analisar_venda_cruzada df pa pb).clientes_a ∪
      (analisar_venda_cruzada df pa pb).clientes_b := by
  show Disjoint (clientesDe df pa \ clientesDe df pb)
        (clientesDe df pb \ clientesDe df pa) ∧
      Disjoint (clientesDe df pa \ clientesDe df pb)
        (clientesDe df pa ∩ clientesDe df pb) ∧
      Disjoint (clientesDe df pb \ clientesDe df pa)
        (clientesDe df pa ∩ clientesDe df pb) ∧
      clientesDe df pa \ clientesDe df pb ∪
        (clientesDe df pb \ clientesDe df pa) ∪
        clientesDe df pa ∩ clientesDe df pb =
      clientesDe df pa ∪ clientesDe df pb
  set A := clientesDe df pa
  set B := clientesDe df pb
  refine ⟨?_, ?_, ?_, ?_⟩
  · rw [Finset.disjoint_left]
    intro a ha hb
    exact (Finset.mem_sdiff.1 ha).2 (Finset.mem_sdiff.1 hb).1
  · rw [Finset.disjoint_left]
    intro a ha hb
    exact (Finset.mem_sdiff.1 ha).2 (Finset.mem_inter.1 hb).2
  · rw [Finset.disjoint_left]
    intro a ha hb
    exact (Finset.mem_sdiff.1 ha).2 (Finset.mem_inter.1 hb).1
  · ext a
    simp only [Finset.mem_union, Finset.mem_sdiff, Finset.mem_inter]
    tauto

/-- C2: the reported cardinalities satisfy
`count_apenas_a + count_ambos = total_a` and
`count_apenas_b + count_ambos = total_b`. -/
theorem counts_add_up (df : List Registro) (pa pb : Nat) :
    (analisar_venda_cruzada df pa pb).count_apenas_a +
      (analisar_venda_cruzada df pa pb).count_ambos =
      (analisar_venda_cruzada df pa pb).total_a ∧
    (analisar_venda_cruzada df pa pb).count_apenas_b +
      (analisar_venda_cruzada df pa pb).count_ambos =
      (analisar_venda_cruzada df pa pb).total_b := by
  show (clientesDe df pa \ clientesDe df pb).card +
        (clientesDe df pa ∩ clientesDe df pb).card = (clientesDe df pa).card ∧
      (clientesDe df pb \ clientesDe df pa).card +
        (clientesDe df pa ∩ clientesDe df pb).card = (clientesDe df pb).card
  constructor
  · exact Finset.card_sdiff_add_card_inter _ _
  · rw [Finset.inter_comm]
    exact Finset.card_sdiff_add_card_inter _ _

/-- C3: the conversion rate is `count_ambos / total_a * 100` whenever
`total_a > 0`, and exactly `0` when `total_a = 0`; on the empty record set
it is `0`.  The computation is a total function (no division-by-zero
error). -/
theorem taxa_conversao_spec (df : List Registro) (pa pb : Nat) :
    (0 < (analisar_venda_cruzada df pa pb).total_a →
      taxa_conversao (analisar_venda_cruzada df pa pb) =
        ((analisar_venda_cruzada df pa pb).count_ambos : ℚ) /
          ((analisar_venda_cruzada df pa pb).total_a : ℚ) * 100) ∧
    ((analisar_venda_cruzada df pa pb).total_a = 0 →
      taxa_conversao (analisar_venda_cruzada df pa pb) = 0) ∧
    taxa_conversao (analisar_venda_cruzada [] pa pb) = 0 := by
  refine ⟨fun h => ?_, fun h => ?_, ?_⟩
  · rw [taxa_conversao, if_pos h]
  · rw [taxa_conversao, if_neg (by omega)]
  · rw [taxa_conversao, if_neg]
    show ¬ 0 < (clientesDe [] pa).card
    simp [clientesDe]

/-- Witness for C3 at the spec scenario: `total_a = 2 > 0` and the rate is
`1 / 2 * 100`. -/
theorem taxa_conversao_spec_witness :
    (0 < (analisar_venda_cruzada dfCenario 10 20).total_a ∧
      taxa_conversao (analisar_venda_cruzada dfCenario 10 20) =
        ((analisar_venda_cruzada dfCenario 10 20).count_ambos : ℚ) /
          ((analisar_venda_cruzada dfCenario 10 20).total_a : ℚ) * 100) ∧
    ((analisar_venda_cruzada dfCenario 10 20).total_a = 0 →
      taxa_conversao (analisar_venda_cruzada dfCenario 10 20) = 0) ∧
    taxa_conversao (analisar_venda_cruzada [] 10 20) = 0 :=
  ⟨⟨by decide, (taxa_conversao_spec dfCenario 10 20).1 (by decide)⟩,
    (taxa_conversao_spec dfCenario 10 20).2.1,
    (taxa_conversao_spec dfCenario 10 20).2.2⟩

/-- C9: the analyzer is total; called with equal products it returns empty
`apenas_a` and `apenas_b` and `ambos` equal to the full customer set of
that product, with matching counts. -/
theorem analisar_equal_products (df : List Registro) (p : Nat) :
    (analisar_venda_cruzada df p p).apenas_a = ∅ ∧
    (analisar_venda_cruzada df p p).apenas_b = ∅ ∧
    (analisar_venda_cruzada df p p).ambos =
      (analisar_venda_cruzada df p p).clientes_a ∧
    (analisar_venda_cruzada df p p).count_apenas_a = 0 ∧
    (analisar_venda_cruzada df p p).count_apenas_b = 0 ∧
    (analisar_venda_cruzada df p p).count_ambos =
      (analisar_venda_cruzada df p p).total_a := by
  show clientesDe df p \ clientesDe df p = ∅ ∧
      clientesDe df p \ clientesDe df p = ∅ ∧
      clientesDe df p ∩ clientesDe df p = clientesDe df p ∧
      (clientesDe df p \ clientesDe df p).card = 0 ∧
      (clientesDe df p \ clientesDe df p).card = 0 ∧
      (clientesDe df p ∩ clientesDe df p).card = (clientesDe df p).card
  refine ⟨Finset.sdiff_self _, Finset.sdiff_self _, Finset.inter_self _, ?_, ?_, ?_⟩
  · rw [Finset.sdiff_self]; rfl
  · rw [Finset.sdiff_self]; rfl
  · rw [Finset.inter_self]

/-- Each filter stage equals one conjunct-filter over the original list. -/
theorem filtroCidade_eq_filter (sel : List String) (df : List Registro) :
    filtroCidade sel df =
      df.filter (predCampo (fun r => r.cidade) "Todas" sel) := by
  rw [filtroCidade]
  by_cases h : (!sel.contains "Todas" && !sel.isEmpty) = true
  · rw [if_pos h]
    exact List.filter_congr fun r _ => by rw [predCampo, if_pos h]
  · rw [if_neg h]
    have : df.filter (predCampo (fun r => r.cidade) "Todas" sel) =
        df.filter (fun _ => true) :=
      List.filter_congr fun r _ => by rw [predCampo, if_neg h]
    rw [this, List.filter_true]

theorem filtroVendedor_eq_filter (sel : List String) (df : List Registro) :
    filtroVendedor sel df =
      df.filter (predCampo (fun r => r.vendedor) "Todos" sel) := by
  rw [filtroVendedor]
  by_cases h : (!sel.contains "Todos" && !sel.isEmpty) = true
  · rw [if_pos h]
    exact List.filter_congr fun r _ => by rw [predCampo, if_pos h]
  · rw [if_neg h]
    have : df.filter (predCampo (fun r => r.vendedor) "Todos" sel) =
        df.filter (fun _ => true) :=
      List.filter_congr fun r _ => by rw [predCampo, if_neg h]
    rw [this, List.filter_true]

theorem filtroAtividade_eq_filter (sel : List String) (df : List Registro) :
    filtroAtividade sel df =
      df.filter (predCampo (fun r => r.atividade) "Todas" sel) := by
  rw [filtroAtividade]
  by_cases h : (!sel.contains "Todas" && !sel.isEmpty) = true
  · rw [if_pos h]
    exact List.filter_congr fun r _ => by rw [predCampo, if_pos h]
  · rw [if_neg h]
    have : df.filter (predCampo (fun r => r.atividade) "Todas" sel) =
        df.filter (fun _ => true) :=
      List.filter_congr fun r _ => by rw [predCampo, if_neg h]
    rw [this, List.filter_true]

theorem filtroRede_eq_filter (sel : List String) (df : List Registro) :
    filtroRede sel df =
      df.filter (predCampo (fun r => r.rede) "Todas" sel) := by
  rw [filtroRede]
  by_cases h : (!sel.contains "Todas" && !sel.isEmpty) = true
  · rw [if_pos h]
    exact List.filter_congr fun r _ => by rw [predCampo, if_pos h]
  · rw [if_neg h]
    have : df.filter (predCampo (fun r => r.rede) "Todas" sel) =
        df.filter (fun _ => true) :=
      List.filter_congr fun r _ => by rw [predCampo, if_neg h]
    rw [this, List.filter_true]

/-- C8: the filter pipeline keeps exactly the records satisfying the
conjunction of the four per-field predicates (a field with a real
restriction demands membership of the attribute in the accepted set, a
field at the sentinel or empty imposes none), and the survivors keep
their relative input order (the result is a sublist of the input). -/
theorem aplicar_filtros_conjunctive (df : List Registro)
    (cs vs ats rs : List String) :
    aplicarFiltros df cs vs ats rs =
      df.filter (fun r =>
        predCampo (fun r => r.cidade) "Todas" cs r &&
        predCampo (fun r => r.vendedor) "Todos" vs r &&
        predCampo (fun r => r.atividade) "Todas" ats r &&
        predCampo (fun r => r.rede) "Todas" rs r) ∧
    (aplicarFiltros df cs vs ats rs).Sublist df := by
  have key : aplicarFiltros df cs vs ats rs =
      df.filter (fun r =>
        predCampo (fun r => r.cidade) "Todas" cs r &&
        predCampo (fun r => r.vendedor) "Todos" vs r &&
        predCampo (fun r => r.atividade) "Todas" ats r &&
        predCampo (fun r => r.rede) "Todas" rs r) := by
    rw [aplicarFiltros, filtroCidade_eq_filter, filtroVendedor_eq_filter,
      filtroAtividade_eq_filter, filtroRede_eq_filter,
      List.filter_filter, List.filter_filter, List.filter_filter]
    refine List.filter_congr fun r _ => ?_
    have : ∀ a b c d : Bool, (d && c && b && a) = (a && b && c && d) := by
      decide
    exact this _ _ _ _
  refine ⟨key, ?_⟩
  rw [key]
  exact List.filter_sublist df

/-- C10: a selection containing the sentinel ("Todas"/"Todos"), or an empty
selection, makes that field's filter stage the identity, even when other
values are selected alongside the sentinel; when all four selections are at
the sentinel or empty the whole pipeline returns the record set unchanged. -/
theorem sentinel_means_no_restriction (df : List Registro)
    (cs vs ats rs : List String) :
    (("Todas" ∈ cs ∨ cs = []) → filtroCidade cs df = df) ∧
    (("Todos" ∈ vs ∨ vs = []) → filtroVendedor vs df = df) ∧
    (("Todas" ∈ ats ∨ ats = []) → filtroAtividade ats df = df) ∧
    (("Todas" ∈ rs ∨ rs = []) → filtroRede rs df = df) ∧
    (("Todas" ∈ cs ∨ cs = []) → ("Todos" ∈ vs ∨ vs = []) →
      ("Todas" ∈ ats ∨ ats = []) → ("Todas" ∈ rs ∨ rs = []) →
      aplicarFiltros df cs vs ats rs = df) := by
  have stage : ∀ (sel : List String) (s : String) (p : Registro → Bool),
      (s ∈ sel ∨ sel = []) →
      (if !sel.contains s && !sel.isEmpty then df.filter p else df) = df := by
    intro sel s p h
    rcases h with h | h
    · rw [if_neg]
      have hc : sel.contains s = true := List.elem_eq_true_of_mem h
      rw [hc]
      simp
    · subst h
      rw [if_neg]
      simp
  refine ⟨fun h => ?_, fun h => ?_, fun h => ?_, fun h => ?_,
    fun h1 h2 h3 h4 => ?_⟩
  · rw [filtroCidade]; exact stage _ _ _ h
  · rw [filtroVendedor]; exact stage _ _ _ h
  · rw [filtroAtividade]; exact stage _ _ _ h
  · rw [filtroRede]; exact stage _ _ _ h
  · rw [aplicarFiltros, filtroCidade, stage _ _ _ h1, filtroVendedor,
      stage _ _ _ h2, filtroAtividade, stage _ _ _ h3, filtroRede,
      stage _ _ _ h4]

/-- Witness for C10: a sentinel alongside a concrete value, and empty
selections, leave the scenario record set unchanged. -/
theorem sentinel_means_no_restriction_witness :
    ("Todas" ∈ (["Todas", "Belo Horizonte"] : List String)) ∧
    aplicarFiltros dfCenario ["Todas", "Belo Horizonte"] [] ["Todas"] [] =
      dfCenario :=
  ⟨by decide,
    (sentinel_means_no_restriction dfCenario ["Todas", "Belo Horizonte"]
        [] ["Todas"] []).2.2.2.2
      (Or.inl (by decide)) (Or.inr rfl) (Or.inl (by decide)) (Or.inr rfl)⟩

/-! ### Helper lemmas: group keys, groups, and table shapes -/

theorem insOrd_perm {α : Type} (le : α → α → Bool) (a : α) :
    ∀ l : List α, List.Perm (insOrd le a l) (a :: l)
  | [] => List.Perm.refl _
  | b :: t => by
    rw [insOrd]
    by_cases h : le a b = true
    · rw [if_pos h]
    · rw [if_neg h]
      exact ((insOrd_perm le a t).cons b).trans (List.Perm.swap a b t)

theorem ordena_perm {α : Type} (le : α → α → Bool) :
    ∀ l : List α, List.Perm (ordena le l) l
  | [] => List.Perm.refl _
  | a :: t => (insOrd_perm le a (ordena le t)).trans ((ordena_perm le t).cons a)

theorem mem_clientesDe {df : List Registro} {p c : Nat} :
    c ∈ clientesDe df p ↔ ∃ r ∈ df, r.mercadoria = p ∧ r.cliente = c := by
  rw [clientesDe]
  simp only [List.mem_toFinset, List.mem_map, List.mem_filter, beq_iff_eq]
  constructor
  · rintro ⟨r, ⟨hr, hm⟩, hc⟩
    exact ⟨r, hr, hm, hc⟩
  · rintro ⟨r, hr, hm, hc⟩
    exact ⟨r, ⟨hr, hm⟩, hc⟩

theorem mem_chavesGrupo {xs : List Registro} {c : Nat} :
    c ∈ chavesGrupo xs ↔ c ∈ xs.map (fun r => r.cliente) := by
  rw [chavesGrupo, (ordena_perm _ _).mem_iff]
  exact List.mem_dedup

theorem chavesGrupo_nodup (xs : List Registro) : (chavesGrupo xs).Nodup :=
  (ordena_perm _ _).symm.nodup (List.nodup_dedup _)

theorem chavesGrupo_toFinset (xs : List Registro) :
    (chavesGrupo xs).toFinset = (xs.map (fun r => r.cliente)).toFinset := by
  ext a
  simp only [List.mem_toFinset]
  rw [mem_chavesGrupo]

theorem chavesGrupo_length (xs : List Registro) :
    (chavesGrupo xs).length = (xs.map (fun r => r.cliente)).toFinset.card := by
  rw [chavesGrupo, (ordena_perm _ _).length_eq]
  have h1 : ((xs.map (fun r => r.cliente)).dedup).toFinset =
      (xs.map (fun r => r.cliente)).toFinset := by
    ext a
    simp only [List.mem_toFinset]
    exact List.mem_dedup
  rw [← h1, List.toFinset_card_of_nodup (List.nodup_dedup _)]

theorem filter_map_toFinset_eq {df : List Registro} {q : Registro → Bool}
    {S : Finset Nat}
    (h1 : ∀ r, q r = true → r.cliente ∈ S)
    (h2 : ∀ c ∈ S, ∃ r, r ∈ df ∧ q r = true ∧ r.cliente = c) :
    ((df.filter q).map (fun r => r.cliente)).toFinset = S := by
  ext c
  simp only [List.mem_toFinset, List.mem_map, List.mem_filter]
  constructor
  · rintro ⟨r, ⟨hrdf, hq⟩, rfl⟩
    exact h1 r hq
  · intro hc
    obtain ⟨r, hrdf, hq, hrc⟩ := h2 c hc
    exact ⟨r, ⟨hrdf, hq⟩, hrc⟩

theorem keys_apenas_a (df : List Registro) (pa pb : Nat) :
    ((df.filter (fun r =>
        decide (r.cliente ∈ (analisar_venda_cruzada df pa pb).apenas_a) &&
        r.mercadoria == pa)).map (fun r => r.cliente)).toFinset =
      (analisar_venda_cruzada df pa pb).apenas_a := by
  show ((df.filter (fun r =>
        decide (r.cliente ∈ clientesDe df pa \ clientesDe df pb) &&
        r.mercadoria == pa)).map (fun r => r.cliente)).toFinset =
      clientesDe df pa \ clientesDe df pb
  apply filter_map_toFinset_eq
  · intro r hq
    rw [Bool.and_eq_true] at hq
    exact of_decide_eq_true hq.1
  · intro c hc
    obtain ⟨r, hrdf, hm, hrc⟩ := mem_clientesDe.1 (Finset.mem_sdiff.1 hc).1
    refine ⟨r, hrdf, ?_, hrc⟩
    rw [Bool.and_eq_true]
    exact ⟨decide_eq_true (show r.cliente ∈ _ by rw [hrc]; exact hc),
      beq_iff_eq.2 hm⟩

theorem keys_apenas_b (df : List Registro) (pa pb : Nat) :
    ((df.filter (fun r =>
        decide (r.cliente ∈ (analisar_venda_cruzada df pa pb).apenas_b) &&
        r.mercadoria == pb)).map (fun r => r.cliente)).toFinset =
      (analisar_venda_cruzada df pa pb).apenas_b := by
  show ((df.filter (fun r =>
        decide (r.cliente ∈ clientesDe df pb \ clientesDe df pa) &&
        r.mercadoria == pb)).map (fun r => r.cliente)).toFinset =
      clientesDe df pb \ clientesDe df pa
  apply filter_map_toFinset_eq
  · intro r hq
    rw [Bool.and_eq_true] at hq
    exact of_decide_eq_true hq.1
  · intro c hc
    obtain ⟨r, hrdf, hm, hrc⟩ := mem_clientesDe.1 (Finset.mem_sdiff.1 hc).1
    refine ⟨r, hrdf, ?_, hrc⟩
    rw [Bool.and_eq_true]
    exact ⟨decide_eq_true (show r.cliente ∈ _ by rw [hrc]; exact hc),
      beq_iff_eq.2 hm⟩

theorem keys_ambos (df : List Registro) (pa pb : Nat) :
    ((df.filter (fun r =>
        decide (r.cliente ∈ (analisar_venda_cruzada df pa pb).ambos))).map
      (fun r => r.cliente)).toFinset =
      (analisar_venda_cruzada df pa pb).ambos := by
  show ((df.filter (fun r =>
        decide (r.cliente ∈ clientesDe df pa ∩ clientesDe df pb))).map
      (fun r => r.cliente)).toFinset =
      clientesDe df pa ∩ clientesDe df pb
  apply filter_map_toFinset_eq
  · intro r hq
    exact of_decide_eq_true hq
  · intro c hc
    obtain ⟨r, hrdf, hm, hrc⟩ := mem_clientesDe.1 (Finset.mem_inter.1 hc).1
    exact ⟨r, hrdf,
      decide_eq_true (show r.cliente ∈ _ by rw [hrc]; exact hc), hrc⟩

theorem tabela_detalhe_length (df : List Registro) (S : Finset Nat) (p : Nat) :
    (tabela_detalhe df S p).length =
      ((df.filter (fun r => decide (r.cliente ∈ S) && r.mercadoria == p)).map
        (fun r => r.cliente)).toFinset.card := by
  simp only [tabela_detalhe, ordenarLinhas]
  rw [(ordena_perm _ _).length_eq, List.length_map, chavesGrupo_length]

theorem tabela_ambos_length (df : List Registro) (S : Finset Nat) (pa pb : Nat) :
    (tabela_ambos df S pa pb).length =
      ((df.filter (fun r => decide (r.cliente ∈ S))).map
        (fun r => r.cliente)).toFinset.card := by
  simp only [tabela_ambos, ordenarLinhasAmbos]
  rw [(ordena_perm _ _).length_eq, List.length_map, chavesGrupo_length]

theorem montarLinha_cliente (xs : List Registro) (c : Nat) :
    (montarLinha xs c).cliente = c := rfl

theorem montarLinhaAmbos_cliente (xs xa xb : List Registro) (c : Nat) :
    (montarLinhaAmbos xs xa xb c).cliente = c := rfl

theorem map_cliente_rows (xs : List Registro) :
    ((chavesGrupo xs).map (montarLinha xs)).map (fun l => l.cliente) =
      chavesGrupo xs := by
  rw [List.map_map]
  have h : ∀ ks : List Nat,
      ks.map ((fun l => l.cliente) ∘ montarLinha xs) = ks := by
    intro ks
    induction ks with
    | nil => rfl
    | cons a t ih =>
      rw [List.map_cons, ih]
      rfl
  exact h _

theorem map_cliente_rows_ambos (xs xa xb : List Registro) :
    ((chavesGrupo xs).map (montarLinhaAmbos xs xa xb)).map (fun l => l.cliente) =
      chavesGrupo xs := by
  rw [List.map_map]
  have h : ∀ ks : List Nat,
      ks.map ((fun l => l.cliente) ∘ montarLinhaAmbos xs xa xb) = ks := by
    intro ks
    induction ks with
    | nil => rfl
    | cons a t ih =>
      rw [List.map_cons, ih]
      rfl
  exact h _

theorem tabela_detalhe_map_cliente_perm (df : List Registro) (S : Finset Nat)
    (p : Nat) :
    List.Perm ((tabela_detalhe df S p).map (fun l => l.cliente))
      (chavesGrupo (df.filter (fun r =>
        decide (r.cliente ∈ S) && r.mercadoria == p))) := by
  simp only [tabela_detalhe, ordenarLinhas]
  refine ((ordena_perm _ _).map _).trans ?_
  rw [map_cliente_rows]

theorem tabela_ambos_map_cliente_perm (df : List Registro) (S : Finset Nat)
    (pa pb : Nat) :
    List.Perm ((tabela_ambos df S pa pb).map (fun l => l.cliente))
      (chavesGrupo (df.filter (fun r => decide (r.cliente ∈ S)))) := by
  simp only [tabela_ambos, ordenarLinhasAmbos]
  refine ((ordena_perm _ _).map _).trans ?_
  rw [map_cliente_rows_ambos]

/-- C4: each detail table has exactly one row per distinct customer of its
partition — the row count equals the partition's cardinality, the customers
of the rows are exactly the partition without repetition — and the table is
empty iff the partition is empty. -/
theorem detail_tables_one_row_per_customer (df : List Registro) (pa pb : Nat) :
    ((tabela_detalhe df (analisar_venda_cruzada df pa pb).apenas_a pa).length =
      (analisar_venda_cruzada df pa pb).count_apenas_a) ∧
    (((tabela_detalhe df (analisar_venda_cruzada df pa pb).apenas_a pa).map
      (fun l => l.cliente)).Nodup) ∧
    (((tabela_detalhe df (analisar_venda_cruzada df pa pb).apenas_a pa).map
      (fun l => l.cliente)).toFinset =
      (analisar_venda_cruzada df pa pb).apenas_a) ∧
    ((tabela_detalhe df (analisar_venda_cruzada df pa pb).apenas_a pa = []) ↔
      (analisar_venda_cruzada df pa pb).apenas_a = ∅) ∧
    ((tabela_detalhe df (analisar_venda_cruzada df pa pb).apenas_b pb).length =
      (analisar_venda_cruzada df pa pb).count_apenas_b) ∧
    (((tabela_detalhe df (analisar_venda_cruzada df pa pb).apenas_b pb).map
      (fun l => l.cliente)).Nodup) ∧
    (((tabela_detalhe df (analisar_venda_cruzada df pa pb).apenas_b pb).map
      (fun l => l.cliente)).toFinset =
      (analisar_venda_cruzada df pa pb).apenas_b) ∧
    ((tabela_detalhe df (analisar_venda_cruzada df pa pb).apenas_b pb = []) ↔
      (analisar_venda_cruzada df pa pb).apenas_b = ∅) ∧
    ((tabela_ambos df (analisar_venda_cruzada df pa pb).ambos pa pb).length =
      (analisar_venda_cruzada df pa pb).count_ambos) ∧
    (((tabela_ambos df (analisar_venda_cruzada df pa pb).ambos pa pb).map
      (fun l => l.cliente)).Nodup) ∧
    (((tabela_ambos df (analisar_venda_cruzada df pa pb).ambos pa pb).map
      (fun l => l.cliente)).toFinset =
      (analisar_venda_cruzada df pa pb).ambos) ∧
    ((tabela_ambos df (analisar_venda_cruzada df pa pb).ambos pa pb = []) ↔
      (analisar_venda_cruzada df pa pb).ambos = ∅) := by
  refine ⟨?_, ?_, ?_, ?_, ?_, ?_, ?_, ?_, ?_, ?_, ?_, ?_⟩
  · rw [tabela_detalhe_length, keys_apenas_a]
    rfl
  · exact (tabela_detalhe_map_cliente_perm df
      (analisar_venda_cruzada df pa pb).apenas_a pa).symm.nodup
      (chavesGrupo_nodup _)
  · rw [List.toFinset_eq_of_perm _ _
      (tabela_detalhe_map_cliente_perm df
        (analisar_venda_cruzada df pa pb).apenas_a pa),
      chavesGrupo_toFinset]
    exact keys_apenas_a df pa pb
  · rw [← List.length_eq_zero, tabela_detalhe_length, keys_apenas_a]
    exact Finset.card_eq_zero
  · rw [tabela_detalhe_length, keys_apenas_b]
    rfl
  · exact (tabela_detalhe_map_cliente_perm df
      (analisar_venda_cruzada df pa pb).apenas_b pb).symm.nodup
      (chavesGrupo_nodup _)
  · rw [List.toFinset_eq_of_perm _ _
      (tabela_detalhe_map_cliente_perm df
        (analisar_venda_cruzada df pa pb).apenas_b pb),
      chavesGrupo_toFinset]
    exact keys_apenas_b df pa pb
  · rw [← List.length_eq_zero, tabela_detalhe_length, keys_apenas_b]
    exact Finset.card_eq_zero
  · rw [tabela_ambos_length, keys_ambos]
    rfl
  · exact (tabela_ambos_map_cliente_perm df
      (analisar_venda_cruzada df pa pb).ambos pa pb).symm.nodup
      (chavesGrupo_nodup _)
  · rw [List.toFinset_eq_of_perm _ _
      (tabela_ambos_map_cliente_perm df
        (analisar_venda_cruzada df pa pb).ambos pa pb),
      chavesGrupo_toFinset]
    exact keys_ambos df pa pb
  · rw [← List.length_eq_zero, tabela_ambos_length, keys_ambos]
    exact Finset.card_eq_zero

theorem mem_tabela_detalhe {df : List Registro} {S : Finset Nat} {p : Nat}
    {l : Linha} :
    l ∈ tabela_detalhe df S p ↔
      ∃ c ∈ chavesGrupo (df.filter (fun r =>
          decide (r.cliente ∈ S) && r.mercadoria == p)),
        l = montarLinha (df.filter (fun r =>
          decide (r.cliente ∈ S) && r.mercadoria == p)) c := by
  simp only [tabela_detalhe, ordenarLinhas]
  rw [(ordena_perm _ _).mem_iff]
  simp only [List.mem_map]
  constructor
  · rintro ⟨c, hc, h⟩
    exact ⟨c, hc, h.symm⟩
  · rintro ⟨c, hc, h⟩
    exact ⟨c, hc, h.symm⟩

theorem mem_tabela_ambos {df : List Registro} {S : Finset Nat} {pa pb : Nat}
    {l : LinhaAmbos} :
    l ∈ tabela_ambos df S pa pb ↔
      ∃ c ∈ chavesGrupo (df.filter (fun r => decide (r.cliente ∈ S))),
        l = montarLinhaAmbos
          (df.filter (fun r => decide (r.cliente ∈ S)))
          (df.filter (fun r => decide (r.cliente ∈ S) && r.mercadoria == pa))
          (df.filter (fun r => decide (r.cliente ∈ S) && r.mercadoria == pb))
          c := by
  simp only [tabela_ambos, ordenarLinhasAmbos]
  rw [(ordena_perm _ _).mem_iff]
  simp only [List.mem_map]
  constructor
  · rintro ⟨c, hc, h⟩
    exact ⟨c, hc, h.symm⟩
  · rintro ⟨c, hc, h⟩
    exact ⟨c, hc, h.symm⟩

theorem mem_chavesGrupo_filter {df : List Registro} {q : Registro → Bool}
    {c : Nat} (h : c ∈ chavesGrupo (df.filter q)) :
    ∃ r ∈ df, q r = true ∧ r.cliente = c := by
  rw [mem_chavesGrupo] at h
  simp only [List.mem_map, List.mem_filter] at h
  obtain ⟨r, ⟨hrdf, hq⟩, hrc⟩ := h
  exact ⟨r, hrdf, hq, hrc⟩

theorem grupo_filter_mem_prod (df : List Registro) (S : Finset Nat) (p c : Nat)
    (hc : c ∈ S) :
    grupo (df.filter (fun r => decide (r.cliente ∈ S) && r.mercadoria == p)) c =
      df.filter (fun r => r.cliente == c && r.mercadoria == p) := by
  rw [grupo, List.filter_filter]
  refine List.filter_congr fun r _ => ?_
  by_cases hrc : r.cliente = c
  · have hd : decide (r.cliente ∈ S) = true :=
      decide_eq_true (show r.cliente ∈ S by rw [hrc]; exact hc)
    have hb : (r.cliente == c) = true := beq_iff_eq.2 hrc
    rw [hd, hb]
    simp
  · have hb : (r.cliente == c) = false := beq_eq_false_iff_ne.2 hrc
    rw [hb]
    simp

theorem grupo_filter_mem (df : List Registro) (S : Finset Nat) (c : Nat)
    (hc : c ∈ S) :
    grupo (df.filter (fun r => decide (r.cliente ∈ S))) c =
      df.filter (fun r => r.cliente == c) := by
  rw [grupo, List.filter_filter]
  refine List.filter_congr fun r _ => ?_
  by_cases hrc : r.cliente = c
  · have hd : decide (r.cliente ∈ S) = true :=
      decide_eq_true (show r.cliente ∈ S by rw [hrc]; exact hc)
    have hb : (r.cliente == c) = true := beq_iff_eq.2 hrc
    rw [hd, hb]
    rfl
  · have hb : (r.cliente == c) = false := beq_eq_false_iff_ne.2 hrc
    rw [hb]
    simp

/-- C5: in every detail table, each row's total quantity is the sum of
`quant` over exactly that customer's matching transactions of the filtered
record set (product-restricted for the only-A/only-B tables, unrestricted
for the both table), and the three tables' record-selection predicates are
mutually exclusive, so no transaction is counted in more than one
partition's table. -/
theorem qtd_total_matches_transactions (df : List Registro) (pa pb : Nat) :
    (∀ l ∈ tabela_detalhe df (analisar_venda_cruzada df pa pb).apenas_a pa,
      l.qtd_total = somaQuant (df.filter (fun r =>
        r.cliente == l.cliente && r.mercadoria == pa))) ∧
    (∀ l ∈ tabela_detalhe df (analisar_venda_cruzada df pa pb).apenas_b pb,
      l.qtd_total = somaQuant (df.filter (fun r =>
        r.cliente == l.cliente && r.mercadoria == pb))) ∧
    (∀ l ∈ tabela_ambos df (analisar_venda_cruzada df pa pb).ambos pa pb,
      l.qtd_total = somaQuant (df.filter (fun r => r.cliente == l.cliente))) ∧
    (∀ r : Registro,
      ¬((decide (r.cliente ∈ (analisar_venda_cruzada df pa pb).apenas_a) &&
          r.mercadoria == pa) = true ∧
        (decide (r.cliente ∈ (analisar_venda_cruzada df pa pb).apenas_b) &&
          r.mercadoria == pb) = true) ∧
      ¬((decide (r.cliente ∈ (analisar_venda_cruzada df pa pb).apenas_a) &&
          r.mercadoria == pa) = true ∧
        decide (r.cliente ∈ (analisar_venda_cruzada df pa pb).ambos) = true) ∧
      ¬((decide (r.cliente ∈ (analisar_venda_cruzada df pa pb).apenas_b) &&
          r.mercadoria == pb) = true ∧
        decide (r.cliente ∈ (analisar_venda_cruzada df pa pb).ambos) = true)) := by
  refine ⟨?_, ?_, ?_, ?_⟩
  · intro l hl
    obtain ⟨c, hck, rfl⟩ := mem_tabela_detalhe.1 hl
    have hcS : c ∈ (analisar_venda_cruzada df pa pb).apenas_a := by
      obtain ⟨r0, _, hq0, hr0c⟩ := mem_chavesGrupo_filter hck
      rw [Bool.and_eq_true] at hq0
      have h0 := of_decide_eq_true hq0.1
      rw [hr0c] at h0
      exact h0
    show somaQuant (grupo (df.filter (fun r =>
        decide (r.cliente ∈ (analisar_venda_cruzada df pa pb).apenas_a) &&
        r.mercadoria == pa)) c) =
      somaQuant (df.filter (fun r => r.cliente == c && r.mercadoria == pa))
    rw [grupo_filter_mem_prod _ _ _ _ hcS]
  · intro l hl
    obtain ⟨c, hck, rfl⟩ := mem_tabela_detalhe.1 hl
    have hcS : c ∈ (analisar_venda_cruzada df pa pb).apenas_b := by
      obtain ⟨r0, _, hq0, hr0c⟩ := mem_chavesGrupo_filter hck
      rw [Bool.and_eq_true] at hq0
      have h0 := of_decide_eq_true hq0.1
      rw [hr0c] at h0
      exact h0
    show somaQuant (grupo (df.filter (fun r =>
        decide (r.cliente ∈ (analisar_venda_cruzada df pa pb).apenas_b) &&
        r.mercadoria == pb)) c) =
      somaQuant (df.filter (fun r => r.cliente == c && r.mercadoria == pb))
    rw [grupo_filter_mem_prod _ _ _ _ hcS]
  · intro l hl
    obtain ⟨c, hck, rfl⟩ := mem_tabela_ambos.1 hl
    have hcS : c ∈ (analisar_venda_cruzada df pa pb).ambos := by
      obtain ⟨r0, _, hq0, hr0c⟩ := mem_chavesGrupo_filter hck
      have h0 := of_decide_eq_true hq0
      rw [hr0c] at h0
      exact h0
    show somaQuant (grupo (df.filter (fun r =>
        decide (r.cliente ∈ (analisar_venda_cruzada df pa pb).ambos))) c) =
      somaQuant (df.filter (fun r => r.cliente == c))
    rw [grupo_filter_mem _ _ _ hcS]
  · intro r
    refine ⟨?_, ?_, ?_⟩
    · rintro ⟨h1, h2⟩
      rw [Bool.and_eq_true] at h1 h2
      have m1 : r.cliente ∈ clientesDe df pa \ clientesDe df pb :=
        of_decide_eq_true h1.1
      have m2 : r.cliente ∈ clientesDe df pb \ clientesDe df pa :=
        of_decide_eq_true h2.1
      exact (Finset.mem_sdiff.1 m1).2 (Finset.mem_sdiff.1 m2).1
    · rintro ⟨h1, h2⟩
      rw [Bool.and_eq_true] at h1
      have m1 : r.cliente ∈ clientesDe df pa \ clientesDe df pb :=
        of_decide_eq_true h1.1
      have m2 : r.cliente ∈ clientesDe df pa ∩ clientesDe df pb :=
        of_decide_eq_true h2
      exact (Finset.mem_sdiff.1 m1).2 (Finset.mem_inter.1 m2).2
    · rintro ⟨h1, h2⟩
      rw [Bool.and_eq_true] at h1
      have m1 : r.cliente ∈ clientesDe df pb \ clientesDe df pa :=
        of_decide_eq_true h1.1
      have m2 : r.cliente ∈ clientesDe df pa ∩ clientesDe df pb :=
        of_decide_eq_true h2
      exact (Finset.mem_sdiff.1 m1).2 (Finset.mem_inter.1 m2).1

/-- Witness for C5 at the spec scenario: the only-A table's row for
customer 2 exists and its total quantity matches the direct sum over that
customer's product-A transactions. -/
theorem qtd_total_matches_transactions_witness :
    linhaC2 ∈ tabela_detalhe dfCenario
      (analisar_venda_cruzada dfCenario 10 20).apenas_a 10 ∧
    linhaC2.qtd_total = somaQuant (dfCenario.filter (fun r =>
      r.cliente == linhaC2.cliente && r.mercadoria == 10)) :=
  ⟨by decide,
    (qtd_total_matches_transactions dfCenario 10 20).1 linhaC2 (by decide)⟩

theorem concatDesc_none_left (db : Option String) :
    concatDesc none db = none := rfl

theorem concatDesc_none_right (da : Option String) :
    concatDesc da none = none := by
  cases da <;> rfl

/-- C6 (amended): in the both-partition table each row's products field is
the concatenation, with `" | "` as separator, of the first non-null
product-A description and the first non-null product-B description of that
customer, whenever both exist; when either side has no non-null
description the field is null (NaN), not an empty-string concatenation.
The computation never fails. -/
theorem produtos_field_amended (df : List Registro) (pa pb : Nat) :
    ∀ l ∈ tabela_ambos df (analisar_venda_cruzada df pa pb).ambos pa pb,
      l.produtos = concatDesc (primeiraDescricao df l.cliente pa)
          (primeiraDescricao df l.cliente pb) ∧
      (∀ da db, primeiraDescricao df l.cliente pa = some da →
        primeiraDescricao df l.cliente pb = some db →
        l.produtos = some (da ++ " | " ++ db)) ∧
      ((primeiraDescricao df l.cliente pa = none ∨
        primeiraDescricao df l.cliente pb = none) → l.produtos = none) := by
  intro l hl
  obtain ⟨c, hck, rfl⟩ := mem_tabela_ambos.1 hl
  have hcS : c ∈ (analisar_venda_cruzada df pa pb).ambos := by
    obtain ⟨r0, _, hq0, hr0c⟩ := mem_chavesGrupo_filter hck
    have h0 := of_decide_eq_true hq0
    rw [hr0c] at h0
    exact h0
  have key : (montarLinhaAmbos
      (df.filter (fun r =>
        decide (r.cliente ∈ (analisar_venda_cruzada df pa pb).ambos)))
      (df.filter (fun r =>
        decide (r.cliente ∈ (analisar_venda_cruzada df pa pb).ambos) &&
        r.mercadoria == pa))
      (df.filter (fun r =>
        decide (r.cliente ∈ (analisar_venda_cruzada df pa pb).ambos) &&
        r.mercadoria == pb))
      c).produtos =
      concatDesc (primeiraDescricao df c pa) (primeiraDescricao df c pb) := by
    show concatDesc
        (aggFirst (fun r => r.descricao_produto) (grupo (df.filter (fun r =>
          decide (r.cliente ∈ (analisar_venda_cruzada df pa pb).ambos) &&
          r.mercadoria == pa)) c))
        (aggFirst (fun r => r.descricao_produto) (grupo (df.filter (fun r =>
          decide (r.cliente ∈ (analisar_venda_cruzada df pa pb).ambos) &&
          r.mercadoria == pb)) c)) =
      concatDesc (primeiraDescricao df c pa) (primeiraDescricao df c pb)
    rw [grupo_filter_mem_prod _ _ _ _ hcS, grupo_filter_mem_prod _ _ _ _ hcS]
    rfl
  refine ⟨key, ?_, ?_⟩
  · intro da db hda hdb
    rw [montarLinhaAmbos_cliente] at hda hdb
    rw [key, hda, hdb]
    rfl
  · intro h
    rw [montarLinhaAmbos_cliente] at h
    rcases h with h | h
    · rw [key, h, concatDesc_none_left]
    · rw [key, h, concatDesc_none_right]

/-- Witness for the amended C6 at the spec scenario: the both-table row for
customer 1 exists and its products field is `"D | D"`, the concatenation of
the two first-seen descriptions. -/
theorem produtos_field_amended_witness :
    linhaAmbos1 ∈ tabela_ambos dfCenario
      (analisar_venda_cruzada dfCenario 10 20).ambos 10 20 ∧
    linhaAmbos1.produtos =
      concatDesc (primeiraDescricao dfCenario linhaAmbos1.cliente 10)
        (primeiraDescricao dfCenario linhaAmbos1.cliente 20) :=
  ⟨by decide,
    (produtos_field_amended dfCenario 10 20 linhaAmbos1 (by decide)).1⟩

/-- Counterexample to C6 as stated: in `dfSemDesc` customer 1 is in `ambos`
but every product-A record has a null description; the claim predicts the
products field `"" ++ " | " ++ "D" = " | D"`, while the code produces a
null (NaN) products field. -/
theorem produtos_field_counterexample :
    (tabela_ambos dfSemDesc (analisar_venda_cruzada dfSemDesc 10 20).ambos
      10 20).map (fun l => l.produtos) = [none] ∧
    (tabela_ambos dfSemDesc (analisar_venda_cruzada dfSemDesc 10 20).ambos
      10 20).map (fun l => l.produtos) ≠ [some ("" ++ " | " ++ "D")] := by
  constructor
  · decide
  · decide
